import Mathlib

/-!
Verification of the UserSphere user-management service.

Shallow embedding of the repository's Python source:
* `app/utils/auth_utils.py`  — password hashing/verification and JWT handling,
* `app/models/user.py`       — the `User` model and its `update` method,
* `app/services/user_service.py` — the `UserService` business logic,
* `app/schemas/user_schema.py`   — the marshmallow validation schemas,
* `app/routes/auth_routes.py` and `app/routes/user_routes.py` — route handlers.

The relational store is modelled as a `List User` in insertion order; the
wall clock and bcrypt salt generation are threaded as explicit parameters.
External library calls (bcrypt, PyJWT, marshmallow field types, SQL LIKE)
are modelled by executable Lean functions mirroring their documented
behaviour; each such model carries a doc comment saying what it models.
-/

deriving instance DecidableEq for Except

namespace UserSphere

/-! ### Model of the bcrypt library -/

/-- Error raised by `bcrypt.checkpw` when the stored digest is not a valid
bcrypt encoding (Python `ValueError: Invalid salt`). -/
inductive BcryptError where
  | invalidSalt
deriving DecidableEq, Repr

/-- Model of a bcrypt digest string: a well-formed digest records the exact
password it was produced from together with the random salt embedded in it;
any other string is a malformed digest. -/
inductive Digest where
  | bcryptHash (password : String) (salt : Nat)
  | malformed (raw : String)
deriving DecidableEq, Repr

/-- Model of the bcrypt library function `bcrypt.checkpw(password, hashed)`:
on a well-formed digest it returns whether the password re-hashes to the
digest; on a malformed digest it raises `ValueError` (modelled as
`Except.error`), it does not return `false`. -/
def checkpw (password : String) (digest : Digest) : Except BcryptError Bool :=
  match digest with
  | .bcryptHash pw _ => .ok (password == pw)
  | .malformed _ => .error .invalidSalt

/-- Whether a password agrees with a digest (`false` on malformed digests);
used only to state theorems. -/
def digestMatches (password : String) (digest : Digest) : Bool :=
  match digest with
  | .bcryptHash pw _ => password == pw
  | .malformed _ => false

/-! ### `app/utils/auth_utils.py` — password helpers -/

/-- `hash_password` (auth_utils.py line 29): `bcrypt.hashpw(password.encode,
bcrypt.gensalt())`; the random salt from `gensalt()` is an explicit
parameter. -/
def hash_password (password : String) (salt : Nat) : Digest :=
  Digest.bcryptHash password salt

/-- `check_password` (auth_utils.py lines 32-33): calls `bcrypt.checkpw`
directly with no exception handling, so a malformed stored digest
propagates bcrypt's error. -/
def check_password (plain_password : String) (hashed_password : Digest) :
    Except BcryptError Bool :=
  checkpw plain_password hashed_password

/-- `verify_password` (auth_utils.py lines 35-51): after encoding the two
strings it calls `bcrypt.checkpw` with no try/except, so a malformed
digest propagates bcrypt's error rather than yielding `false`. -/
def verify_password (password : String) (hashed_password : Digest) :
    Except BcryptError Bool :=
  checkpw password hashed_password

/-! ### Model of the PyJWT library and `auth_utils.py` token functions -/

/-- The claims embedded in a token by `generate_token`/`create_access_token`. -/
structure JwtPayload where
  user_id : Nat
  exp : Nat
  iat : Nat
deriving DecidableEq, Repr

/-- Model of a JWT string: a well-formed token carries its payload and the
key it was signed with; any other string is malformed. -/
inductive Token where
  | signed (payload : JwtPayload) (key : String)
  | garbled (raw : String)
deriving DecidableEq, Repr

/-- PyJWT failure modes relevant here: `jwt.ExpiredSignatureError` and
`jwt.InvalidTokenError` (which covers malformed tokens and bad
signatures). -/
inductive JwtError where
  | expiredSignature
  | invalidToken
deriving DecidableEq, Repr

/-- Model of the PyJWT call `jwt.decode(token, key, algorithms=[HS256])`:
malformed tokens and signature mismatches raise `InvalidTokenError`; a
token whose `exp` claim is not in the future raises
`ExpiredSignatureError`; otherwise the payload is returned. -/
def jwtDecode (token : Token) (key : String) (now : Nat) :
    Except JwtError JwtPayload :=
  match token with
  | .garbled _ => .error .invalidToken
  | .signed payload k =>
      if k == key then
        if payload.exp ≤ now then .error .expiredSignature
        else .ok payload
      else .error .invalidToken

/-- `decode_token` (auth_utils.py lines 78-98): wraps `jwt.decode` and maps
both `ExpiredSignatureError` and `InvalidTokenError` to `None`. -/
def decode_token (token : Token) (key : String) (now : Nat) :
    Option JwtPayload :=
  match jwtDecode token key now with
  | .ok payload => some payload
  | .error _ => none

/-- Outcome of the `token_required` guard. -/
inductive GuardResult where
  | missingToken
  | invalidToken
  | success (user_id : Nat)
deriving DecidableEq, Repr

/-- `token_required` (auth_utils.py lines 100-153) from the point where the
bearer token has been extracted from the `Authorization` header (the
header-splitting branches are not modelled): a missing token yields 401
"Missing token"; a token that `decode_token` rejects yields 401 "Invalid
token" whatever the reason; otherwise the handler runs with
`payload.user_id`. -/
def token_required (token : Option Token) (key : String) (now : Nat) :
    GuardResult :=
  match token with
  | none => .missingToken
  | some t =>
      match decode_token t key now with
      | none => .invalidToken
      | some payload => .success payload.user_id

/-- `generate_token` (auth_utils.py lines 53-76): signs a payload holding
`user_id`, an expiry `expires_in` seconds from now, and the issue time. -/
def generate_token (user_id : Nat) (key : String) (now : Nat)
    (expires_in : Nat := 3600) : Token :=
  Token.signed { user_id := user_id, exp := now + expires_in, iat := now } key

/-- Model of `flask_jwt_extended.create_access_token(identity=user.id)` used
by the login route: issues a token for the user signed with the
application key. -/
def create_access_token (user_id : Nat) (key : String) (now : Nat) : Token :=
  Token.signed { user_id := user_id, exp := now + 3600, iat := now } key

/-! ### `app/models/user.py` — the User model -/

/-- The `users` table row (user.py lines 9-35). `password` stores the bcrypt
digest; `created_at`/`updated_at` are timestamps (modelled as `Nat`);
`is_active` defaults to true and `false` means soft-deleted. -/
structure User where
  id : Nat
  name : String
  email : String
  age : Option Int
  password : Digest
  created_at : Nat
  updated_at : Nat
  is_active : Bool
deriving DecidableEq, Repr

/-- The keyword arguments accepted by `User.update(**kwargs)` as produced by
the update schema / service: each field is `some` when the key is present
in the dictionary. `age` can be explicitly set to `null`, hence the nested
option. -/
structure UpdatePayload where
  name : Option String := none
  email : Option String := none
  age : Option (Option Int) := none
  password : Option Digest := none
  is_active : Option Bool := none
deriving DecidableEq, Repr

/-- `User.update` (user.py lines 73-79): sets every attribute present in the
kwargs (the `id` key is skipped by the guard `key != 'id'`), then stamps
`updated_at` with the current time; `created_at` is never touched. -/
def User.applyUpdate (u : User) (p : UpdatePayload) (now : Nat) : User :=
  { id := u.id
    name := p.name.getD u.name
    email := p.email.getD u.email
    age := match p.age with | some a => a | none => u.age
    password := p.password.getD u.password
    created_at := u.created_at
    updated_at := now
    is_active := p.is_active.getD u.is_active }

/-! ### SQL LIKE model (used by `User.name.ilike` / `User.email.ilike`) -/

/-- Fuel-indexed SQL `LIKE` pattern matcher: `%` matches any sequence, `_`
any single character, anything else itself. The fuel only forces
termination; `likeMatch` supplies enough of it. -/
def likeMatchF : Nat → List Char → List Char → Bool
  | 0, _, _ => false
  | _ + 1, [], [] => true
  | _ + 1, [], _ :: _ => false
  | f + 1, p :: ps, [] => if p = '%' then likeMatchF f ps [] else false
  | f + 1, p :: ps, d :: ss =>
      if p = '%' then likeMatchF f ps (d :: ss) || likeMatchF f (p :: ps) ss
      else if p = '_' then likeMatchF f ps ss
      else p == d && likeMatchF f ps ss

/-- Model of SQL `LIKE`: does `s` match the pattern `p`? -/
def likeMatch (p s : List Char) : Bool :=
  likeMatchF (p.length + s.length + 1) p s

/-- Model of SQLAlchemy's `column.ilike(pattern)`: case-insensitive `LIKE`,
i.e. `LIKE` after lowercasing both operands. -/
def ilike (target pattern : String) : Bool :=
  likeMatch (pattern.toList.map Char.toLower) (target.toList.map Char.toLower)

/-! ### `app/services/user_service.py` — the service layer -/

/-- The `ValueError` messages raised by the service layer. -/
inductive ServiceError where
  | duplicateEmail
  | notFound
deriving DecidableEq, Repr

/-- Model of the autoincrement primary key: the next id assigned by the
database on insert. -/
def nextId (s : List User) : Nat :=
  (s.foldr (fun u m => max u.id m) 0) + 1

/-- `UserService.get_all_users` (user_service.py lines 14-17):
`User.query.filter_by(is_active=True).all()`. -/
def get_all_users (s : List User) : List User :=
  s.filter (fun u => u.is_active)

/-- `UserService.get_user_by_id` (user_service.py lines 19-30):
`User.query.filter_by(id=user_id, is_active=True).first()`. -/
def get_user_by_id (user_id : Nat) (s : List User) : Option User :=
  s.find? (fun u => u.id == user_id && u.is_active)

/-- `UserService.get_user_by_email` (user_service.py lines 32-43):
`User.query.filter_by(email=email, is_active=True).first()`. -/
def get_user_by_email (email : String) (s : List User) : Option User :=
  s.find? (fun u => u.email == email && u.is_active)

/-- The validated payload of a user-creation request (the dictionary the
create schema hands to the service). -/
structure CreateData where
  name : String
  email : String
  password : String
  age : Option Int
deriving DecidableEq, Repr

/-- `UserService.create_user` (user_service.py lines 45-80): reject when any
row — active or not — already has the email
(`User.query.filter_by(email=...).first()`); otherwise hash the password
and insert a fresh row (`is_active` defaults true, both timestamps set to
creation time). -/
def create_user (d : CreateData) (s : List User) (salt now : Nat) :
    Except ServiceError (User × List User) :=
  match s.find? (fun u => u.email == d.email) with
  | some _ => .error .duplicateEmail
  | none =>
      let u : User :=
        { id := nextId s
          name := d.name
          email := d.email
          age := d.age
          password := hash_password d.password salt
          created_at := now
          updated_at := now
          is_active := true }
      .ok (u, s ++ [u])

/-- The fields that may appear in an update request (`UserUpdateSchema`);
each is `some` exactly when the key is present in the JSON body. -/
structure UpdateInput where
  name : Option String := none
  email : Option String := none
  age : Option (Option Int) := none
  password : Option String := none
  is_active : Option Bool := none
deriving DecidableEq, Repr

/-- The duplicate-email test of `UserService.update_user` (user_service.py
lines 101-105): when `email` is in the payload, look the email up over all
rows and fail if the row found belongs to a different id. -/
def emailCollides (d : UpdateInput) (user_id : Nat) (s : List User) : Bool :=
  match d.email with
  | some e =>
      match s.find? (fun v => v.email == e) with
      | some ex => ex.id != user_id
      | none => false
  | none => false

/-- `UserService.update_user` (user_service.py lines 82-116): require an
existing active user; check the email collision; re-hash the password when
present; then apply the remaining fields verbatim through `User.update`,
which stamps `updated_at`. -/
def update_user (user_id : Nat) (d : UpdateInput) (s : List User)
    (salt now : Nat) : Except ServiceError (User × List User) :=
  match get_user_by_id user_id s with
  | none => .error .notFound
  | some user =>
      if emailCollides d user_id s then .error .duplicateEmail
      else
        let u' := user.applyUpdate
          { name := d.name
            email := d.email
            age := d.age
            password := d.password.map (fun pw => hash_password pw salt)
            is_active := d.is_active } now
        .ok (u', s.map (fun v => if v.id = user_id then u' else v))

/-- `UserService.permanently_delete_user` (user_service.py lines 144-167):
`User.query.get(user_id)` finds the row regardless of `is_active`; the row
is then removed from the table. -/
def permanently_delete_user (user_id : Nat) (s : List User) :
    Except ServiceError (List User) :=
  match s.find? (fun u => u.id == user_id) with
  | none => .error .notFound
  | some _ => .ok (s.filter (fun u => !(u.id == user_id)))

/-- `UserService.search_users` (user_service.py lines 169-187): filter on
`name ILIKE '%query%' OR email ILIKE '%query%'` AND `is_active == True`. -/
def search_users (query : String) (s : List User) : List User :=
  let search_term := "%" ++ query ++ "%"
  s.filter (fun u => (ilike u.name search_term || ilike u.email search_term)
    && u.is_active)

/-- `UserService.authenticate_user` (user_service.py lines 189-204): look up
the first ACTIVE user with the email; return it when `verify_password`
accepts, `None` otherwise (including when no such user exists). -/
def authenticate_user (email password : String) (s : List User) :
    Except BcryptError (Option User) :=
  match s.find? (fun u => u.email == email && u.is_active) with
  | none => .ok none
  | some user =>
      match verify_password password user.password with
      | .error e => .error e
      | .ok b => .ok (if b then some user else none)

/-- `UserService.toggle_user_status` (user_service.py lines 216-232):
`User.query.get(user_id)` finds the row regardless of `is_active`, then
`user.update(is_active=not user.is_active)` flips the flag and stamps
`updated_at`. -/
def toggle_user_status (user_id : Nat) (s : List User) (now : Nat) :
    Except ServiceError (User × List User) :=
  match s.find? (fun u => u.id == user_id) with
  | none => .error .notFound
  | some user =>
      let u' := user.applyUpdate { is_active := some (!user.is_active) } now
      .ok (u', s.map (fun v => if v.id = user_id then u' else v))

/-! ### Model of the marshmallow validation layer (`app/schemas/user_schema.py`)

The manual `UserSchema` (user_schema.py lines 26-73) and `UserUpdateSchema`
(lines 75-111) are the ones the routes use. marshmallow `load` first runs
every field's deserialization and validators, collecting the errors of all
invalid fields into one field-to-messages mapping; only when that phase
reports no error does the `@post_load` hook run, so the explicit regex email
check can only ever fail on its own. -/

/-- Split a character list at every occurrence of `c` (the pieces do not
contain `c`); always returns at least one piece. -/
def splitOnChar (c : Char) : List Char → List (List Char)
  | [] => [[]]
  | d :: ds =>
      match splitOnChar c ds with
      | [] => [[]]
      | r :: rs => if d = c then [] :: r :: rs else (d :: r) :: rs

/-- Characters the marshmallow email validator accepts in a dot-atom local
part (letters, digits, and the specials of its user regex). -/
def emailAtomChar (c : Char) : Bool :=
  c.isAlphanum ||
    c ∈ ['-', '!', '#', '$', '%', '&', '*', '+', '/', '=', '?', '^', '_',
         '|', '~', Char.ofNat 39, Char.ofNat 96, Char.ofNat 123,
         Char.ofNat 125]

/-- A DNS label of the marshmallow domain regex: nonempty, at most 63 chars,
alphanumerics and hyphens, starting and ending alphanumeric. -/
def labelOk (l : List Char) : Bool :=
  match l with
  | [] => false
  | c :: _ =>
      c.isAlphanum &&
      (match l.getLast? with | some d => d.isAlphanum | none => false) &&
      l.length ≤ 63 &&
      l.all (fun x => x.isAlphanum || x = '-')

/-- The top-level-domain part of the marshmallow domain regex: 2 to 63
letters. -/
def tldOk (t : List Char) : Bool :=
  2 ≤ t.length && t.length ≤ 63 && t.all Char.isAlpha

/-- Model of marshmallow's `fields.Email` validator (the "general syntax"
check): split at the last `@`; the local part must be a dot-atom of
`emailAtomChar`s; the domain must be the whitelisted literal `localhost`
or dot-separated labels ending in an alphabetic TLD. (The quoted-string
local-part form, IP-literal domains and `xn--` TLDs are not modelled.) -/
def marshmallowEmailValid (email : String) : Bool :=
  match (splitOnChar '@' email.toList).reverse with
  | [] => false
  | [_] => false
  | domain :: _ =>
      let localLen := email.toList.length - (domain.length + 1)
      let localPart := email.toList.take localLen
      (localPart ≠ []) &&
      (splitOnChar '.' localPart).all
        (fun a => a ≠ [] && a.all emailAtomChar) &&
      (if domain = "localhost".toList then true
       else
        match (splitOnChar '.' domain).reverse with
        | [] => false
        | tld :: labelsRev =>
            labelsRev ≠ [] && labelsRev.all labelOk && tldOk tld)

/-- The character class `[a-zA-Z0-9._%+-]` of the explicit email regex. -/
def classA (c : Char) : Bool :=
  c.isAlphanum || c = '.' || c = '_' || c = '%' || c = '+' || c = '-'

/-- The character class `[a-zA-Z0-9.-]` of the explicit email regex. -/
def classB (c : Char) : Bool :=
  c.isAlphanum || c = '.' || c = '-'

/-- Matcher for the domain half `[a-zA-Z0-9.-]+\.[a-zA-Z]\x7b2,\x7d$` of the
explicit regex: the string must end in a dot followed by at least two
letters, preceded by a nonempty `classB` prefix. -/
def restMatch (rest : List Char) : Bool :=
  let rrev := rest.reverse
  let t := rrev.takeWhile Char.isAlpha
  let rem := rrev.drop t.length
  2 ≤ t.length &&
    (match rem with
     | [] => false
     | d :: before => d == '.' && before ≠ [] && before.all classB)

/-- The explicit regex pass `^[a-zA-Z0-9._%+-]+@[a-zA-Z0-9.-]+\.[a-zA-Z]`
(two or more trailing letters, anchored at both ends) applied by the
`@post_load` hooks of both schemas and by
`auth_utils.validate_email_format`. Neither character class contains `@`,
so the subject must contain exactly one `@`. -/
def regexEmailMatch (email : String) : Bool :=
  match splitOnChar '@' email.toList with
  | [localPart, rest] => localPart ≠ [] && localPart.all classA && restMatch rest
  | _ => false

/-- The name regex `^[a-zA-Z\s]+$` (one or more letters or whitespace). -/
def nameRegexOk (n : String) : Bool :=
  n.toList ≠ [] && n.toList.all (fun c => c.isAlpha || c.isWhitespace)

/-- Validator errors for a present `name` value: `validate.Length(min=2,
max=100)` and the letters-and-spaces `validate.Regexp`; both validators
run, so both messages can be reported together. -/
def nameErrs (n : String) : List String :=
  (if n.length < 2 || 100 < n.length
   then ["Length must be between 2 and 100."] else []) ++
  (if nameRegexOk n then [] else ["Name can only contain letters and spaces"])

/-- Validator errors for a present `email` value: the `fields.Email` check
(whose failure suppresses the length validator) then
`validate.Length(max=120)`. -/
def emailErrs (e : String) : List String :=
  if marshmallowEmailValid e then
    (if e.length ≤ 120 then [] else ["Longer than maximum length 120."])
  else ["Not a valid email address."]

/-- Validator errors for the optional `age` field: absent or explicit null is
accepted (`allow_none=True`), a value must lie in `validate.Range(min=1,
max=150)`. -/
def ageErrs : Option (Option Int) → List String
  | none => []
  | some none => []
  | some (some a) =>
      if 1 ≤ a ∧ a ≤ 150 then []
      else ["Must be greater than or equal to 1 and less than or equal to 150."]

/-- Validator errors for a present `password` value:
`validate.Length(min=6, max=128)`. -/
def passwordErrs (p : String) : List String :=
  if p.length < 6 || 128 < p.length
  then ["Length must be between 6 and 128."] else []

/-- One entry of the marshmallow error mapping: present exactly when the
field has at least one message. -/
def entry (label : String) (errs : List String) :
    List (String × List String) :=
  if errs = [] then [] else [(label, errs)]

/-- A user-creation request body (`UserSchema` load input): each field is
`some` exactly when the key is present in the JSON object. -/
structure CreateInput where
  name : Option String := none
  email : Option String := none
  age : Option (Option Int) := none
  password : Option String := none
deriving DecidableEq, Repr

/-- The field-phase error mapping of `UserSchema.load`: required messages for
absent `name`/`email`/`password` (with the schema's custom texts), the
per-field validator errors otherwise, collected over ALL fields. -/
def createFieldErrors (input : CreateInput) : List (String × List String) :=
  entry "name"
    (match input.name with
     | none => ["Name is required"]
     | some n => nameErrs n) ++
  entry "email"
    (match input.email with
     | none => ["Email is required"]
     | some e => emailErrs e) ++
  entry "age" (ageErrs input.age) ++
  entry "password"
    (match input.password with
     | none => ["Password is required"]
     | some p => passwordErrs p)

/-- `UserSchema.load` (user_schema.py lines 26-73): the field phase collects
all field errors; only when it reports none does the `@post_load`
`validate_email_format` hook run the explicit regex, which on failure
raises exactly `{email: [Invalid email format]}`. -/
def loadCreate (input : CreateInput) :
    Except (List (String × List String)) CreateData :=
  if createFieldErrors input ≠ [] then .error (createFieldErrors input)
  else
    match input.name, input.email, input.password with
    | some n, some e, some p =>
        if regexEmailMatch e then
          .ok { name := n, email := e, password := p, age := input.age.join }
        else .error [("email", ["Invalid email format"])]
    | _, _, _ => .error (createFieldErrors input)

/-- The field-phase error mapping of `UserUpdateSchema.load`: the same
per-field validators, every field optional, and `is_active` a plain
`fields.Bool()` with no validator. -/
def updateFieldErrors (input : UpdateInput) : List (String × List String) :=
  entry "name" (match input.name with | none => [] | some n => nameErrs n) ++
  entry "email" (match input.email with | none => [] | some e => emailErrs e) ++
  entry "age" (ageErrs input.age) ++
  entry "password"
    (match input.password with | none => [] | some p => passwordErrs p)

/-- `UserUpdateSchema.load` (user_schema.py lines 75-111): all fields
optional (the loadable set includes `is_active`); the `@post_load` regex
hook runs only when the field phase reports no errors and only when an
email is present. -/
def loadUpdate (input : UpdateInput) :
    Except (List (String × List String)) UpdateInput :=
  if updateFieldErrors input ≠ [] then .error (updateFieldErrors input)
  else
    match input.email with
    | some e =>
        if regexEmailMatch e then .ok input
        else .error [("email", ["Invalid email format"])]
    | none => .ok input

/-! ### Route handlers (`auth_routes.py`, `user_routes.py`) -/

/-- The response shapes the modelled routes can produce. -/
inductive RouteResult where
  | noInput
  | validationError (details : List (String × List String))
  | badRequest (msg : String)
  | emailExists
  | created (u : User)
  | okUser (u : User)
  | notFound
  | serverError
deriving DecidableEq, Repr

/-- `register` (auth_routes.py lines 10-24): duplicate-email check over all
rows, then the user is created DIRECTLY from the raw JSON — no schema
validation runs — with `age` defaulting to `0` via `data.get(age, 0)`. -/
def register (d : CreateData) (s : List User) (salt now : Nat) :
    RouteResult × List User :=
  match s.find? (fun u => u.email == d.email) with
  | some _ => (.emailExists, s)
  | none =>
      let u : User :=
        { id := nextId s
          name := d.name
          email := d.email
          age := some (d.age.getD 0)
          password := hash_password d.password salt
          created_at := now
          updated_at := now
          is_active := true }
      (.created u, s ++ [u])

/-- Outcome of the login endpoint. -/
inductive LoginResult where
  | invalidCredentials
  | token (t : Token)
deriving DecidableEq, Repr

/-- `login` (auth_routes.py lines 26-35): looks the user up by email with NO
`is_active` filter (`User.query.filter_by(email=...).first()`); on a
password match it issues an access token, otherwise 401 Invalid
credentials for both a missing user and a wrong password. -/
def login (email password : String) (s : List User) (key : String)
    (now : Nat) : Except BcryptError LoginResult :=
  match s.find? (fun u => u.email == email) with
  | none => .ok .invalidCredentials
  | some user =>
      match check_password password user.password with
      | .error e => .error e
      | .ok b =>
          if b then .ok (.token (create_access_token user.id key now))
          else .ok .invalidCredentials

/-- Whether a creation request body is the empty JSON object (the route's
`if not json_data` test). -/
def CreateInput.isEmpty (input : CreateInput) : Bool :=
  input.name.isNone && input.email.isNone && input.age.isNone &&
    input.password.isNone

/-- Whether an update request body is the empty JSON object. -/
def UpdateInput.isEmptyInput (input : UpdateInput) : Bool :=
  input.name.isNone && input.email.isNone && input.age.isNone &&
    input.password.isNone && input.is_active.isNone

/-- `create_user` route, POST /users (user_routes.py lines 65-110): reject an
empty body; load through `UserSchema` and return the structured errors on
failure; then call the service, mapping its duplicate-email `ValueError`
to 400. -/
def createUserRoute (input : CreateInput) (s : List User) (salt now : Nat) :
    RouteResult × List User :=
  if input.isEmpty then (.noInput, s)
  else
    match loadCreate input with
    | .error m => (.validationError m, s)
    | .ok d =>
        match create_user d s salt now with
        | .ok (u, s') => (.created u, s')
        | .error .duplicateEmail => (.badRequest "Email address already exists", s)
        | .error .notFound => (.serverError, s)

/-- `update_user` route, PUT /users/id (user_routes.py lines 112-166): 404
unless an active user with the id exists; reject an empty body; load
through `UserUpdateSchema`; then call the service. -/
def updateUserRoute (user_id : Nat) (input : UpdateInput) (s : List User)
    (salt now : Nat) : RouteResult × List User :=
  match get_user_by_id user_id s with
  | none => (.notFound, s)
  | some _ =>
      if input.isEmptyInput then (.noInput, s)
      else
        match loadUpdate input with
        | .error m => (.validationError m, s)
        | .ok d =>
            match update_user user_id d s salt now with
            | .ok (u, s') => (.okUser u, s')
            | .error .duplicateEmail =>
                (.badRequest "Email address already exists", s)
            | .error .notFound => (.badRequest "User not found", s)

/-! ### Example fixtures used by witnesses and counterexamples -/

/-- A stored digest for the password `secret1`. -/
def annHash : Digest := Digest.bcryptHash "secret1" 7

/-- An active user row. -/
def annActive : User :=
  { id := 1, name := "Ann Lee", email := "ann@x.com", age := some 30,
    password := annHash, created_at := 0, updated_at := 0, is_active := true }

/-- A stored digest for the password `hunter22`. -/
def bobHash : Digest := Digest.bcryptHash "hunter22" 3

/-- A soft-deleted user row (`is_active = false`). -/
def bobInactive : User :=
  { id := 2, name := "Bob Ray", email := "bob@x.com", age := none,
    password := bobHash, created_at := 0, updated_at := 0, is_active := false }

/-! ### Helper lemmas about the LIKE matcher -/

/-- The fuel argument of `likeMatchF` is irrelevant once it exceeds the
combined length of pattern and subject. -/
theorem likeMatchF_stable (f : Nat) : ∀ (g : Nat) (p s : List Char),
    p.length + s.length < f → p.length + s.length < g →
    likeMatchF f p s = likeMatchF g p s := by
  induction f with
  | zero => intro g p s hf _; omega
  | succ f ih =>
    intro g p s hf hg
    cases g with
    | zero => omega
    | succ g =>
      cases p with
      | nil =>
        cases s with
        | nil => rfl
        | cons d ss => rfl
      | cons q ps =>
        cases s with
        | nil =>
          have hf' : ps.length + 0 < f := by
            simp only [List.length_cons, List.length_nil] at hf; omega
          have hg' : ps.length + 0 < g := by
            simp only [List.length_cons, List.length_nil] at hg; omega
          by_cases hq : q = '%'
          · simp only [likeMatchF, if_pos hq]
            exact ih g ps [] hf' hg'
          · simp only [likeMatchF, if_neg hq]
        | cons d ss =>
          have hlen : (q :: ps).length + (d :: ss).length
              = ps.length + ss.length + 2 := by
            simp [List.length_cons]; omega
          rw [hlen] at hf hg
          by_cases hq : q = '%'
          · simp only [likeMatchF, if_pos hq]
            rw [ih g ps (d :: ss) (by simp [List.length_cons]; omega)
                  (by simp [List.length_cons]; omega),
                ih g (q :: ps) ss (by simp [List.length_cons]; omega)
                  (by simp [List.length_cons]; omega)]
          · by_cases hu : q = '_'
            · simp only [likeMatchF, if_neg hq, if_pos hu]
              exact ih g ps ss (by omega) (by omega)
            · simp only [likeMatchF, if_neg hq, if_neg hu]
              rw [ih g ps ss (by omega) (by omega)]

/-- Any sufficient fuel computes `likeMatch`. -/
theorem likeMatchF_eq_likeMatch (f : Nat) (p s : List Char)
    (h : p.length + s.length < f) : likeMatchF f p s = likeMatch p s :=
  likeMatchF_stable f (p.length + s.length + 1) p s h (by omega)

/-- Unfolding equation of `likeMatch` at an empty subject. -/
theorem likeMatch_cons_nil (q : Char) (ps : List Char) :
    likeMatch (q :: ps) [] = if q = '%' then likeMatch ps [] else false := rfl

/-- Unfolding equation of `likeMatch` at a nonempty pattern and subject. -/
theorem likeMatch_cons_cons (q d : Char) (ps ss : List Char) :
    likeMatch (q :: ps) (d :: ss) =
      if q = '%' then likeMatch ps (d :: ss) || likeMatch (q :: ps) ss
      else if q = '_' then likeMatch ps ss
      else (q == d && likeMatch ps ss) := by
  show likeMatchF ((q :: ps).length + (d :: ss).length + 1) (q :: ps) (d :: ss)
      = _
  have hlen : (q :: ps).length + (d :: ss).length + 1
      = (ps.length + ss.length + 2) + 1 := by
    simp [List.length_cons]; omega
  rw [hlen]
  show (if q = '%' then
          likeMatchF (ps.length + ss.length + 2) ps (d :: ss) ||
            likeMatchF (ps.length + ss.length + 2) (q :: ps) ss
        else if q = '_' then likeMatchF (ps.length + ss.length + 2) ps ss
        else (q == d && likeMatchF (ps.length + ss.length + 2) ps ss)) = _
  rw [likeMatchF_eq_likeMatch _ ps (d :: ss) (by simp [List.length_cons]; omega),
      likeMatchF_eq_likeMatch _ (q :: ps) ss (by simp [List.length_cons]; omega),
      likeMatchF_eq_likeMatch _ ps ss (by omega)]

/-- The empty pattern matches exactly the empty subject. -/
theorem likeMatch_nil_iff (s : List Char) :
    likeMatch [] s = true ↔ s = [] := by
  cases s with
  | nil => simp [likeMatch, likeMatchF]
  | cons d ss => simp [likeMatch, likeMatchF]

/-- Unfolding `likeMatch` with a leading `%` on the empty subject. -/
theorem likeMatch_pct_nil (ps : List Char) :
    likeMatch ('%' :: ps) [] = likeMatch ps [] := by
  rw [likeMatch_cons_nil]; simp

/-- Unfolding `likeMatch` with a leading `%` on a nonempty subject. -/
theorem likeMatch_pct_cons (ps : List Char) (d : Char) (ss : List Char) :
    likeMatch ('%' :: ps) (d :: ss)
      = (likeMatch ps (d :: ss) || likeMatch ('%' :: ps) ss) := by
  rw [likeMatch_cons_cons]; simp

/-- A leading `%` matches a subject iff the rest of the pattern matches some
suffix of the subject. -/
theorem likeMatch_pct_iff (ps : List Char) (s : List Char) :
    likeMatch ('%' :: ps) s = true ↔
      ∃ t, t <:+ s ∧ likeMatch ps t = true := by
  induction s with
  | nil =>
      rw [likeMatch_pct_nil]
      constructor
      · intro h; exact ⟨[], List.nil_suffix, h⟩
      · rintro ⟨t, ht, hm⟩
        have h0 : t = [] := List.suffix_nil.mp ht
        rw [h0] at hm; exact hm
  | cons d ss ih =>
      rw [likeMatch_pct_cons, Bool.or_eq_true, ih]
      constructor
      · rintro (h | ⟨t, ht, hm⟩)
        · exact ⟨d :: ss, List.suffix_refl _, h⟩
        · exact ⟨t, ht.trans (List.suffix_cons d ss), hm⟩
      · rintro ⟨t, ht, hm⟩
        rcases List.suffix_cons_iff.mp ht with h | h
        · rw [h] at hm; exact Or.inl hm
        · exact Or.inr ⟨t, h, hm⟩

/-- A wildcard-free pattern followed by `%` matches a subject iff the
pattern is a prefix of the subject. -/
theorem likeMatch_plain_pre :
    ∀ (q : List Char), (∀ c ∈ q, c ≠ '%' ∧ c ≠ '_') →
      ∀ s, (likeMatch (q ++ ['%']) s = true ↔ q <+: s) := by
  intro q
  induction q with
  | nil =>
      intro _ s
      rw [List.nil_append, likeMatch_pct_iff]
      constructor
      · intro _; exact List.nil_prefix
      · intro _; exact ⟨[], List.nil_suffix, rfl⟩
  | cons c q' ih =>
      intro hq s
      have hc := hq c (List.mem_cons_self c q')
      have hq' : ∀ x ∈ q', x ≠ '%' ∧ x ≠ '_' :=
        fun x hx => hq x (List.mem_cons_of_mem c hx)
      cases s with
      | nil =>
          rw [List.cons_append, likeMatch_cons_nil]
          simp only [if_neg hc.1]
          constructor
          · intro h; cases h
          · intro h
            have h2 := h.length_le
            simp at h2
      | cons d ss =>
          rw [List.cons_append, likeMatch_cons_cons]
          simp only [if_neg hc.1, if_neg hc.2, Bool.and_eq_true, beq_iff_eq]
          rw [ih hq' ss, List.cons_prefix_cons]

/-- The pattern `%q%` with a wildcard-free `q` matches exactly the subjects
that contain `q` as a contiguous substring. -/
theorem likeMatch_wrap_iff (q : List Char)
    (hq : ∀ c ∈ q, c ≠ '%' ∧ c ≠ '_') (s : List Char) :
    likeMatch ('%' :: (q ++ ['%'])) s = true ↔ q <:+: s := by
  rw [likeMatch_pct_iff]
  constructor
  · rintro ⟨t, hts, hm⟩
    exact List.infix_iff_prefix_suffix.mpr
      ⟨t, (likeMatch_plain_pre q hq t).mp hm, hts⟩
  · intro h
    rcases List.infix_iff_prefix_suffix.mp h with ⟨t, hpre, hsuf⟩
    exact ⟨t, hsuf, (likeMatch_plain_pre q hq t).mpr hpre⟩

/-- The lowercased search pattern `%query%` in list form. -/
theorem search_pattern_eq (q : String) :
    ("%" ++ q ++ "%").toList.map Char.toLower
      = '%' :: (q.toList.map Char.toLower ++ ['%']) := by
  have h1 : ("%" ++ q ++ "%").toList = '%' :: (q.toList ++ ['%']) := by
    show (("%" ++ q) ++ "%").data = '%' :: (q.data ++ ['%'])
    rw [String.data_append, String.data_append]
    rfl
  rw [h1]
  simp only [List.map_cons, List.map_append, List.map_nil]
  rfl

/-- One entry of a marshmallow error mapping mentions a field iff that field
has at least one message. -/
theorem mem_map_fst_entry (lbl l : String) (e : List String) :
    lbl ∈ (entry l e).map Prod.fst ↔ (lbl = l ∧ e ≠ []) := by
  unfold entry
  by_cases he : e = [] <;> simp [he]

/-! ### Claim C2 — duplicate email blocks registration -/

/-- C2: any registration whose email exactly matches the email of an existing
row — active or soft-deleted — fails with the duplicate-email error and
leaves the store unchanged, both in `UserService.create_user` and in the
`/register` endpoint. -/
theorem c2_duplicate_email (d : CreateData) (s : List User) (salt now : Nat)
    (h : ∃ u ∈ s, u.email = d.email) :
    create_user d s salt now = Except.error ServiceError.duplicateEmail ∧
    register d s salt now = (RouteResult.emailExists, s) := by
  obtain ⟨u, hu, he⟩ := h
  have hsome : (s.find? (fun v => v.email == d.email)).isSome := by
    rw [List.find?_isSome]
    exact ⟨u, hu, by simp [he]⟩
  obtain ⟨v, hv⟩ := Option.isSome_iff_exists.mp hsome
  constructor
  · simp [create_user, hv]
  · simp [register, hv]

/-- A registration payload reusing Ann's email. -/
def annDupData : CreateData :=
  { name := "Ann Lee", email := "ann@x.com", password := "secret1",
    age := none }

/-- C2 witness: re-registering `ann@x.com` over a store already holding that
email is rejected by both the service and the endpoint. -/
theorem c2_witness :
    create_user annDupData [annActive] 0 5
      = Except.error ServiceError.duplicateEmail ∧
    register annDupData [annActive] 0 5
      = (RouteResult.emailExists, [annActive]) :=
  c2_duplicate_email _ _ _ _ ⟨annActive, by simp, rfl⟩

/-! ### Claim C3 — verify on a malformed digest -/

/-- C3 counterexample: on a digest that is not a valid bcrypt encoding,
`verify_password` propagates bcrypt's `ValueError` instead of returning
`false`, contradicting the claim that it returns a boolean and never
raises. -/
theorem c3_counterexample :
    verify_password "secret1" (Digest.malformed "nothash")
      = Except.error BcryptError.invalidSalt ∧
    verify_password "secret1" (Digest.malformed "nothash")
      ≠ Except.ok false := by
  constructor
  · rfl
  · decide

/-- C3 amended: for well-formed digests `verify_password` (and
`check_password`) returns the boolean comparison result; an invalidly
encoded digest makes both raise bcrypt's invalid-salt error rather than
return `false`. -/
theorem c3_amended (p pw raw : String) (salt : Nat) :
    verify_password p (Digest.bcryptHash pw salt) = Except.ok (p == pw) ∧
    verify_password p (Digest.malformed raw)
      = Except.error BcryptError.invalidSalt ∧
    check_password p (Digest.malformed raw)
      = Except.error BcryptError.invalidSalt :=
  ⟨rfl, rfl, rfl⟩

/-! ### Claim C8 — token verification failure typing -/

/-- C8 counterexample: the underlying library distinguishes an expired token
from a malformed one, but `decode_token` returns the same untyped `None`
for both, so the repository's token verification does NOT return a typed
failure distinguishing the two causes. -/
theorem c8_counterexample :
    jwtDecode (Token.signed { user_id := 1, exp := 50, iat := 0 } "secret")
        "secret" 100
      = Except.error JwtError.expiredSignature ∧
    jwtDecode (Token.garbled "junk") "secret" 100
      = Except.error JwtError.invalidToken ∧
    decode_token (Token.signed { user_id := 1, exp := 50, iat := 0 } "secret")
        "secret" 100
      = decode_token (Token.garbled "junk") "secret" 100 := by
  decide

/-- C8 amended: `decode_token` collapses every failure of the underlying
decoder — expired as well as malformed/invalid-signature — into the single
untyped value `None`, and the `token_required` guard maps that to the same
401 response. -/
theorem c8_amended (t : Token) (key : String) (now : Nat) :
    (decode_token t key now = none ↔
      ∃ e, jwtDecode t key now = Except.error e) ∧
    (∀ pl, decode_token t key now = some pl ↔
      jwtDecode t key now = Except.ok pl) ∧
    (∀ e, jwtDecode t key now = Except.error e →
      token_required (some t) key now = GuardResult.invalidToken) := by
  cases h : jwtDecode t key now with
  | ok pl => simp [decode_token, token_required, h]
  | error e => simp [decode_token, token_required, h]

/-- C8 witness: a garbled token makes `decode_token` return `None` and the
guard answer 401 Invalid token. -/
theorem c8_amended_witness :
    decode_token (Token.garbled "junk") "k" 0 = none ∧
    token_required (some (Token.garbled "junk")) "k" 0
      = GuardResult.invalidToken := by
  have h := c8_amended (Token.garbled "junk") "k" 0
  exact ⟨h.1.mpr ⟨JwtError.invalidToken, rfl⟩,
         h.2.2 JwtError.invalidToken rfl⟩

/-! ### Claim C9 — soft-deleted users: invisible to reads, reachable by id -/

/-- C9: a soft-deleted user appears in no result of `get_all_users` and no
result of `search_users` for any query, yet `toggle_user_status` and
`permanently_delete_user` on that user's id succeed instead of raising
User not found. -/
theorem c9_soft_deleted (u : User) (s : List User) (now : Nat)
    (hmem : u ∈ s) (hinact : u.is_active = false) :
    u ∉ get_all_users s ∧ (∀ q, u ∉ search_users q s) ∧
    (∃ r, toggle_user_status u.id s now = Except.ok r) ∧
    (∃ r, permanently_delete_user u.id s = Except.ok r) := by
  have hfind : (s.find? (fun v => v.id == u.id)).isSome := by
    rw [List.find?_isSome]
    exact ⟨u, hmem, by simp⟩
  obtain ⟨v, hv⟩ := Option.isSome_iff_exists.mp hfind
  refine ⟨?_, ?_, ?_, ?_⟩
  · simp [get_all_users, List.mem_filter, hinact]
  · intro q
    simp [search_users, List.mem_filter, hinact]
  · refine ⟨(v.applyUpdate { is_active := some (!v.is_active) } now,
        s.map (fun w => if w.id = u.id then
          v.applyUpdate { is_active := some (!v.is_active) } now else w)), ?_⟩
    simp [toggle_user_status, hv]
  · refine ⟨s.filter (fun w => !(w.id == u.id)), ?_⟩
    simp [permanently_delete_user, hv]

/-- C9 witness: the soft-deleted Bob is invisible to listing and search but
both id-addressed operations succeed on id 2. -/
theorem c9_witness :
    bobInactive ∉ get_all_users [annActive, bobInactive] ∧
    bobInactive ∉ search_users "bob" [annActive, bobInactive] ∧
    toggle_user_status 2 [annActive, bobInactive] 9
      ≠ Except.error ServiceError.notFound ∧
    permanently_delete_user 2 [annActive, bobInactive]
      ≠ Except.error ServiceError.notFound := by
  have h := c9_soft_deleted bobInactive [annActive, bobInactive] 9
    (by simp) rfl
  refine ⟨h.1, h.2.1 "bob", ?_, ?_⟩
  · obtain ⟨r, hr⟩ := h.2.2.1
    rw [show (2 : Nat) = bobInactive.id from rfl, hr]
    simp
  · obtain ⟨r, hr⟩ := h.2.2.2
    rw [show (2 : Nat) = bobInactive.id from rfl, hr]
    simp

/-! ### Claim C10 — the update schema accepts `is_active` -/

/-- Ann's row after the generic update sets `is_active` to false at time 5. -/
def annSoftDeleted : User :=
  { id := 1, name := "Ann Lee", email := "ann@x.com", age := some 30,
    password := annHash, created_at := 0, updated_at := 5, is_active := false }

/-- C10: `UserUpdateSchema` loads an `is_active` field, so a PUT with body
`{is_active: false}` on an existing active user passes validation and
flips the user's flag to false through the generic update path alone. -/
theorem c10_update_can_soft_delete :
    loadUpdate { is_active := some false }
      = Except.ok { is_active := some false } ∧
    updateUserRoute 1 { is_active := some false } [annActive] 3 5
      = (RouteResult.okUser annSoftDeleted, [annSoftDeleted]) ∧
    annSoftDeleted.is_active = false := by
  decide

/-! ### Claim C4 — validation before creation -/

/-- A registration body violating the name rule (one character). -/
def shortNameData : CreateData :=
  { name := "X", email := "newuser@x.com", password := "secret1",
    age := none }

/-- The row `/register` creates from `shortNameData` despite the violation. -/
def shortNameUser : User :=
  { id := 1, name := "X", email := "newuser@x.com", age := some 0,
    password := Digest.bcryptHash "secret1" 0, created_at := 5,
    updated_at := 5, is_active := true }

/-- C4 counterexample: the `/register` endpoint runs no schema validation, so
a body whose name violates the create rules (here one character, below the
2-character minimum) still creates a user instead of being rejected. -/
theorem c4_counterexample :
    nameErrs "X" ≠ [] ∧
    register shortNameData [] 0 5
      = (RouteResult.created shortNameUser, [shortNameUser]) := by
  decide

/-- C4 amended: the POST /users route rejects every body the create schema
faults — before any user is created, leaving the store unchanged — but the
`/register` endpoint performs no such validation (see the
counterexample). -/
theorem c4_amended (input : CreateInput) (s : List User) (salt now : Nat)
    (m : List (String × List String))
    (h : loadCreate input = Except.error m) :
    (createUserRoute input s salt now).2 = s ∧
    ((createUserRoute input s salt now).1 = RouteResult.noInput ∨
     (createUserRoute input s salt now).1 = RouteResult.validationError m) := by
  cases he : input.isEmpty with
  | true => simp [createUserRoute, he]
  | false => simp [createUserRoute, he, h]

/-- The invalid creation body used by the C4 witness and C6 counterexample:
a one-character name together with an email the general check accepts but
the explicit regex rejects. -/
def badCreateInput : CreateInput :=
  { name := some "X", email := some "user@localhost",
    password := some "secret1", age := none }

/-- C4 witness: the POST /users route turns the faulty body into a 400
validation error and creates nothing. -/
theorem c4_amended_witness :
    (createUserRoute badCreateInput [] 0 5).2 = [] ∧
    ((createUserRoute badCreateInput [] 0 5).1 = RouteResult.noInput ∨
     (createUserRoute badCreateInput [] 0 5).1
       = RouteResult.validationError
           [("name", ["Length must be between 2 and 100."])]) :=
  c4_amended badCreateInput [] 0 5 _ (by decide)

/-! ### Claim C6 — error collection and the double email check -/

/-- C6 counterexample: on a body whose name is invalid and whose email passes
the general syntax check but fails the explicit regex pass, `load` reports
ONLY the name error — the email regex error is not reported together with
other field errors, because the `@post_load` hook never runs once the
field phase failed. -/
theorem c6_counterexample :
    marshmallowEmailValid "user@localhost" = true ∧
    regexEmailMatch "user@localhost" = false ∧
    loadCreate badCreateInput
      = Except.error [("name", ["Length must be between 2 and 100."])] ∧
    "email" ∉ ([("name", ["Length must be between 2 and 100."])].map
        (Prod.fst (α := String) (β := List String))) := by
  decide

/-- C6 amended: the field phase of `load` collects the errors of ALL invalid
fields into one field-to-messages map (a field is mentioned iff its own
validators fail); the explicit regex email pass runs only when the field
phase reports no error, so its `email` error is always the sole entry of
the returned map and is never combined with other field errors. -/
theorem c6_amended (input : CreateInput) :
    (createFieldErrors input ≠ [] →
      loadCreate input = Except.error (createFieldErrors input)) ∧
    ("name" ∈ (createFieldErrors input).map Prod.fst ↔
      (match input.name with
       | none => ["Name is required"]
       | some n => nameErrs n) ≠ []) ∧
    ("email" ∈ (createFieldErrors input).map Prod.fst ↔
      (match input.email with
       | none => ["Email is required"]
       | some e => emailErrs e) ≠ []) ∧
    ("age" ∈ (createFieldErrors input).map Prod.fst ↔
      ageErrs input.age ≠ []) ∧
    ("password" ∈ (createFieldErrors input).map Prod.fst ↔
      (match input.password with
       | none => ["Password is required"]
       | some p => passwordErrs p) ≠ []) ∧
    (∀ m, loadCreate input = Except.error m →
      m = createFieldErrors input ∨
        m = [("email", ["Invalid email format"])]) := by
  refine ⟨?_, ?_, ?_, ?_, ?_, ?_⟩
  · intro h
    unfold loadCreate
    rw [if_pos h]
  · simp only [createFieldErrors, List.map_append, List.mem_append,
      mem_map_fst_entry]
    simp [show ("name" : String) ≠ "email" from by decide,
      show ("name" : String) ≠ "age" from by decide,
      show ("name" : String) ≠ "password" from by decide]
  · simp only [createFieldErrors, List.map_append, List.mem_append,
      mem_map_fst_entry]
    simp [show ("email" : String) ≠ "name" from by decide,
      show ("email" : String) ≠ "age" from by decide,
      show ("email" : String) ≠ "password" from by decide]
  · simp only [createFieldErrors, List.map_append, List.mem_append,
      mem_map_fst_entry]
    simp [show ("age" : String) ≠ "name" from by decide,
      show ("age" : String) ≠ "email" from by decide,
      show ("age" : String) ≠ "password" from by decide]
  · simp only [createFieldErrors, List.map_append, List.mem_append,
      mem_map_fst_entry]
    simp [show ("password" : String) ≠ "name" from by decide,
      show ("password" : String) ≠ "email" from by decide,
      show ("password" : String) ≠ "age" from by decide]
  · intro m hm
    unfold loadCreate at hm
    by_cases h : createFieldErrors input ≠ []
    · rw [if_pos h] at hm
      exact Or.inl (Except.error.inj hm).symm
    · rw [if_neg h] at hm
      split at hm
      · split at hm
        · simp at hm
        · exact Or.inr (Except.error.inj hm).symm
      · exact Or.inl (Except.error.inj hm).symm

/-- An update body with several simultaneously invalid fields. -/
def multiBadInput : CreateInput :=
  { name := some "X", email := none, age := some (some 300),
    password := some "abc" }

/-- C6 witness: a body with four invalid fields gets all four reported in one
map. -/
theorem c6_amended_witness :
    loadCreate multiBadInput = Except.error (createFieldErrors multiBadInput) ∧
    "name" ∈ (createFieldErrors multiBadInput).map Prod.fst ∧
    "email" ∈ (createFieldErrors multiBadInput).map Prod.fst ∧
    "age" ∈ (createFieldErrors multiBadInput).map Prod.fst ∧
    "password" ∈ (createFieldErrors multiBadInput).map Prod.fst := by
  have h := c6_amended multiBadInput
  exact ⟨h.1 (by decide), h.2.1.mpr (by decide), h.2.2.1.mpr (by decide),
    h.2.2.2.1.mpr (by decide), h.2.2.2.2.1.mpr (by decide)⟩

/-! ### Claim C5 — partial update frame conditions -/

/-- C5: when `update_user` succeeds on an existing active user, every field
supplied in the payload takes its new value (the password re-hashed),
every omitted field keeps its prior value, `id` and `created_at` are
untouched, `updated_at` is stamped with the mutation time — hence strictly
increases whenever the clock moved forward — and no other row changes. -/
theorem c5_partial_update (user_id : Nat) (d : UpdateInput) (s : List User)
    (salt now : Nat) (u u' : User) (s' : List User)
    (hu : get_user_by_id user_id s = some u)
    (hupd : update_user user_id d s salt now = Except.ok (u', s')) :
    u'.id = u.id ∧ u'.created_at = u.created_at ∧
    u'.name = d.name.getD u.name ∧
    u'.email = d.email.getD u.email ∧
    u'.age = (match d.age with | some a => a | none => u.age) ∧
    u'.password = (match d.password with
      | some pw => hash_password pw salt
      | none => u.password) ∧
    u'.is_active = d.is_active.getD u.is_active ∧
    u'.updated_at = now ∧
    (u.updated_at < now → u.updated_at < u'.updated_at) ∧
    s' = s.map (fun v => if v.id = user_id then u' else v) := by
  unfold update_user at hupd
  rw [hu] at hupd
  dsimp only at hupd
  by_cases hc : emailCollides d user_id s = true
  · rw [if_pos hc] at hupd
    simp at hupd
  · rw [if_neg hc] at hupd
    simp only [Except.ok.injEq, Prod.mk.injEq] at hupd
    obtain ⟨h1, h2⟩ := hupd
    subst h1
    subst h2
    refine ⟨rfl, rfl, rfl, rfl, rfl, ?_, rfl, rfl, ?_, rfl⟩
    · cases hpw : d.password <;> simp [hpw, User.applyUpdate]
    · intro h
      exact h

/-- Ann's row after the C5 witness update renames her at time 5. -/
def annRenamed : User :=
  { id := 1, name := "Ann Ray", email := "ann@x.com", age := some 30,
    password := annHash, created_at := 0, updated_at := 5, is_active := true }

/-- C5 witness: updating only the name leaves the email untouched and stamps
`updated_at` with the strictly later mutation time. -/
theorem c5_witness :
    annRenamed.updated_at = 5 ∧
    annActive.updated_at < annRenamed.updated_at ∧
    annRenamed.email
      = ({ name := some "Ann Ray" } : UpdateInput).email.getD annActive.email ∧
    annRenamed.name = "Ann Ray" := by
  obtain ⟨h1, h2, h3, h4, h5, h6, h7, h8, h9, h10⟩ :=
    c5_partial_update 1 { name := some "Ann Ray" } [annActive] 3 5
      annActive annRenamed [annRenamed] (by decide) (by decide)
  exact ⟨h8, h9 (by decide), h4, by decide⟩

/-! ### Claim C1 — authentication contract -/

/-- C1 counterexample: the login endpoint omits the `is_active` filter, so a
soft-deleted user with the right password receives a token even though no
ACTIVE user carries that email — the claimed if-and-only-if fails. -/
theorem c1_counterexample :
    login "bob@x.com" "hunter22" [bobInactive] "key" 0
      = Except.ok (LoginResult.token
          (Token.signed { user_id := 2, exp := 3600, iat := 0 } "key")) ∧
    ¬ (∃ u ∈ [bobInactive], u.is_active = true ∧ u.email = "bob@x.com" ∧
        digestMatches "hunter22" u.password = true) := by
  decide

/-- C1 amended: over a store with well-formed digests and unique emails,
`UserService.authenticate_user` succeeds iff an ACTIVE user carries the
email and the password verifies; the login endpoint, by contrast, succeeds
iff ANY user — active or soft-deleted — carries the email and the password
verifies, answering Invalid credentials in every other case. -/
theorem c1_amended (s : List User) (email p key : String) (now : Nat)
    (hwf : ∀ u ∈ s, ∃ pw salt, u.password = Digest.bcryptHash pw salt)
    (hnd : (s.map User.email).Nodup) :
    ((∃ u, authenticate_user email p s = Except.ok (some u)) ↔
      ∃ u ∈ s, u.is_active = true ∧ u.email = email ∧
        digestMatches p u.password = true) ∧
    ((∃ t, login email p s key now = Except.ok (LoginResult.token t)) ↔
      ∃ u ∈ s, u.email = email ∧ digestMatches p u.password = true) := by
  constructor
  · constructor
    · rintro ⟨u, hu⟩
      unfold authenticate_user at hu
      cases hfind : s.find? (fun v => v.email == email && v.is_active) with
      | none => rw [hfind] at hu; simp at hu
      | some v =>
          rw [hfind] at hu
          have hvmem := List.mem_of_find?_eq_some hfind
          have hvpred := List.find?_some hfind
          simp only [Bool.and_eq_true, beq_iff_eq] at hvpred
          obtain ⟨pw, salt, hps⟩ := hwf v hvmem
          simp only [verify_password, checkpw, hps] at hu
          cases hb : (p == pw) with
          | false => rw [hb] at hu; simp at hu
          | true =>
              refine ⟨v, hvmem, hvpred.2, hvpred.1, ?_⟩
              rw [hps]
              exact hb
    · rintro ⟨u, hmem, hact, hem, hmatch⟩
      have hfind : (s.find? (fun v => v.email == email && v.is_active)).isSome := by
        rw [List.find?_isSome]
        exact ⟨u, hmem, by simp [hem, hact]⟩
      obtain ⟨v, hv⟩ := Option.isSome_iff_exists.mp hfind
      have hvmem := List.mem_of_find?_eq_some hv
      have hvpred := List.find?_some hv
      simp only [Bool.and_eq_true, beq_iff_eq] at hvpred
      have hveq : v = u :=
        List.inj_on_of_nodup_map hnd hvmem hmem (by rw [hvpred.1, hem])
      subst hveq
      obtain ⟨pw, salt, hps⟩ := hwf v hvmem
      rw [hps] at hmatch
      have hb : (p == pw) = true := hmatch
      refine ⟨v, ?_⟩
      unfold authenticate_user
      rw [hv]
      simp [verify_password, checkpw, hps, hb]
  · constructor
    · rintro ⟨t, ht⟩
      unfold login at ht
      cases hfind : s.find? (fun v => v.email == email) with
      | none => rw [hfind] at ht; simp at ht
      | some v =>
          rw [hfind] at ht
          have hvmem := List.mem_of_find?_eq_some hfind
          have hvpred := List.find?_some hfind
          simp only [beq_iff_eq] at hvpred
          obtain ⟨pw, salt, hps⟩ := hwf v hvmem
          simp only [check_password, checkpw, hps] at ht
          cases hb : (p == pw) with
          | false => rw [hb] at ht; simp at ht
          | true =>
              refine ⟨v, hvmem, hvpred, ?_⟩
              rw [hps]
              exact hb
    · rintro ⟨u, hmem, hem, hmatch⟩
      have hfind : (s.find? (fun v => v.email == email)).isSome := by
        rw [List.find?_isSome]
        exact ⟨u, hmem, by simp [hem]⟩
      obtain ⟨v, hv⟩ := Option.isSome_iff_exists.mp hfind
      have hvmem := List.mem_of_find?_eq_some hv
      have hvpred := List.find?_some hv
      simp only [beq_iff_eq] at hvpred
      have hveq : v = u :=
        List.inj_on_of_nodup_map hnd hvmem hmem (by rw [hvpred, hem])
      subst hveq
      obtain ⟨pw, salt, hps⟩ := hwf v hvmem
      rw [hps] at hmatch
      have hb : (p == pw) = true := hmatch
      refine ⟨create_access_token v.id key now, ?_⟩
      unfold login
      rw [hv]
      simp [check_password, checkpw, hps, hb]

/-- C1 witness: with the correct password of an active user both the service
and the endpoint authenticate. -/
theorem c1_amended_witness :
    (∃ u, authenticate_user "ann@x.com" "secret1" [annActive]
      = Except.ok (some u)) ∧
    (∃ t, login "ann@x.com" "secret1" [annActive] "key" 0
      = Except.ok (LoginResult.token t)) := by
  have h := c1_amended [annActive] "ann@x.com" "secret1" "key" 0
    (by intro u hu
        simp at hu
        subst hu
        exact ⟨"secret1", 7, rfl⟩)
    (by decide)
  exact ⟨h.1.mpr ⟨annActive, by simp, rfl, rfl, by decide⟩,
         h.2.mpr ⟨annActive, by simp, rfl, by decide⟩⟩

/-! ### Claim C7 — search characterization -/

/-- An active user whose name contains no percent sign. -/
def calActive : User :=
  { id := 3, name := "aXb", email := "cal@q.co", age := none,
    password := Digest.bcryptHash "pw1234" 1, created_at := 0,
    updated_at := 0, is_active := true }

/-- C7 counterexample: the search query is spliced unescaped into the LIKE
pattern, so the query `a%b` — whose `%` acts as a wildcard — returns a
user although `a%b` is not a substring of either the name or the email
under case-insensitive comparison. -/
theorem c7_counterexample :
    search_users "a%b" [calActive] = [calActive] ∧
    ¬ ("a%b".toList.map Char.toLower <:+:
        calActive.name.toList.map Char.toLower) ∧
    ¬ ("a%b".toList.map Char.toLower <:+:
        calActive.email.toList.map Char.toLower) := by
  decide

/-- C7 amended: for every query free of the SQL LIKE wildcards `%` and `_`,
`search_users` returns exactly the active users whose name or email
contains the query as a case-insensitive substring; queries containing
wildcards are interpreted as LIKE patterns instead (see the
counterexample). -/
theorem c7_amended (q : String)
    (hq : ∀ c ∈ q.toList, Char.toLower c ≠ '%' ∧ Char.toLower c ≠ '_')
    (s : List User) (u : User) :
    u ∈ search_users q s ↔
      u ∈ s ∧ u.is_active = true ∧
        ((q.toList.map Char.toLower) <:+: (u.name.toList.map Char.toLower) ∨
         (q.toList.map Char.toLower) <:+: (u.email.toList.map Char.toLower)) := by
  have hq' : ∀ c ∈ q.toList.map Char.toLower, c ≠ '%' ∧ c ≠ '_' := by
    intro c hc
    rcases List.mem_map.mp hc with ⟨x, hx, hxe⟩
    rw [← hxe]
    exact hq x hx
  have hname : ilike u.name ("%" ++ q ++ "%") = true ↔
      (q.toList.map Char.toLower) <:+: (u.name.toList.map Char.toLower) := by
    unfold ilike
    rw [search_pattern_eq]
    exact likeMatch_wrap_iff _ hq' _
  have hemail : ilike u.email ("%" ++ q ++ "%") = true ↔
      (q.toList.map Char.toLower) <:+: (u.email.toList.map Char.toLower) := by
    unfold ilike
    rw [search_pattern_eq]
    exact likeMatch_wrap_iff _ hq' _
  simp only [search_users, List.mem_filter, Bool.and_eq_true, Bool.or_eq_true,
    hname, hemail]
  tauto

/-- C7 witness: the wildcard-free query `ann` finds the active Ann by name
and does not return the soft-deleted Bob. -/
theorem c7_amended_witness :
    annActive ∈ search_users "ann" [annActive, bobInactive] ∧
    bobInactive ∉ search_users "ann" [annActive, bobInactive] := by
  have h1 := c7_amended "ann" (by decide) [annActive, bobInactive] annActive
  have h2 := c7_amended "ann" (by decide) [annActive, bobInactive] bobInactive
  constructor
  · exact h1.mpr ⟨by simp, rfl, Or.inl (by decide)⟩
  · intro hc
    exact absurd ((h2.mp hc).2.1) (by decide)

end UserSphere
